import Mathlib

/-!
Verification development for the gatha-transcribe session synchronization and
persistence engine.

The definitions below are a shallow embedding of the Rust source:

* `TranscriptionSession` follows the construction sites in `src/websocket.rs`
  (`load_or_create_session`) and the serialized shape asserted by
  `tests/session_persistence_e2e.rs`; floats become `ℚ` (the code only copies
  and compares them, never does float arithmetic) and the `i64` version becomes
  `Int` (the code only copies and compares versions, never does arithmetic on
  them, so no wrap-around can occur).
* The message types follow `src/messages.rs`.
* `Store.get/set/delete/list_all` model `InMemorySessionStore` from
  `src/session_store.rs` (a keyed map; modelled as an association list with at
  most one live entry per key, matching the `HashMap` semantics).
* `DB.get/upsert/upsert_batch` model the `transcription_sessions` table surface
  in `src/db.rs`; a serialized snapshot is modelled by `Blob`, where `Blob.bad`
  stands for a stored string that does not deserialize into a session and
  `serialize`/`deserialize` reflect that `dirty` is `#[serde(skip)]` (never
  written, always read back as `false`).
* `handle_text_message`, `load_or_create_session`, `detach_cleanup` and
  `handle_socket` model `src/websocket.rs`; `persistence_tick` models one
  iteration of the loop in `spawn_persistence_task` in `src/lib.rs`.
  External failure modes (database read error, batch upsert error, socket send
  error) are passed in as explicit parameters.
-/

/-- Session state carried by `ServerMessage.StateSync` and
`ClientMessage.SyncState` (`src/messages.rs`). -/
structure SessionState where
  current_time : ℚ
  playback_speed : ℚ
  volume : ℚ
  version : Int
deriving DecidableEq

/-- Playback position update payload (`src/messages.rs`). -/
structure PlaybackUpdate where
  current_time : ℚ
  version : Int
deriving DecidableEq

/-- Playback speed update payload (`src/messages.rs`). -/
structure PlaybackSpeedUpdate where
  playback_speed : ℚ
  version : Int
deriving DecidableEq

/-- Volume update payload (`src/messages.rs`). -/
structure VolumeUpdate where
  volume : ℚ
  version : Int
deriving DecidableEq

/-- Client-to-server messages (`src/messages.rs`). -/
inductive ClientMessage where
  | UpdatePlaybackPosition (p : PlaybackUpdate)
  | UpdatePlaybackSpeed (p : PlaybackSpeedUpdate)
  | UpdateVolume (p : VolumeUpdate)
  | SyncState (s : SessionState)
deriving DecidableEq

/-- Video metadata row, the fields used by the protocol handler
(`src/db.rs`, `Video`). -/
structure Video where
  width : Option Int
  height : Option Int
  duration_seconds : Option ℚ
deriving DecidableEq

/-- Server-to-client messages (`src/messages.rs`). -/
inductive ServerMessage where
  | TestMessage (text : String)
  | StateSync (session : SessionState)
  | VideoMetadata (width : Option Int) (height : Option Int)
      (duration_seconds : Option ℚ)
deriving DecidableEq

/-- Key for indexing sessions by `(user_id, video_id)`
(`src/session_store.rs`). -/
abbrev SessionKey := String × String

/-- In-memory session record. Fields follow the construction in
`load_or_create_session` (`src/websocket.rs`) and the snapshot shape asserted
in `tests/session_persistence_e2e.rs`. -/
structure TranscriptionSession where
  user_id : String
  video_id : String
  current_time : ℚ
  playback_speed : ℚ
  volume : ℚ
  version : Int
  dirty : Bool
deriving DecidableEq

/-- Serialized session snapshot as stored in the `state_json` column.
`good` holds a snapshot that deserializes; `bad` stands for a stored string
that fails `serde_json::from_str`. -/
inductive Blob where
  | good (s : TranscriptionSession)
  | bad (raw : String)
deriving DecidableEq

/-- Model of `serde_json::to_string` on a session: `dirty` is `#[serde(skip)]`,
so the serialized snapshot carries `dirty = false`. -/
def serialize (s : TranscriptionSession) : Blob :=
  Blob.good { s with dirty := false }

/-- Model of `serde_json::from_str::<TranscriptionSession>`: a good blob
yields its snapshot with `dirty = false` (skipped fields read back as the
default), a bad blob fails. -/
def deserialize : Blob → Option TranscriptionSession
  | Blob.good s => some { s with dirty := false }
  | Blob.bad _ => none

/-- Lookup in an association list keyed by `SessionKey`. -/
def assocLookup {α : Type} : List (SessionKey × α) → SessionKey → Option α
  | [], _ => none
  | p :: ps, k => if p.1 = k then some p.2 else assocLookup ps k

/-- Removal of every entry for a key from an association list. -/
def assocErase {α : Type} : List (SessionKey × α) → SessionKey → List (SessionKey × α)
  | [], _ => []
  | p :: ps, k => if p.1 = k then assocErase ps k else p :: assocErase ps k

/-- Insert-or-replace for an association list (the `HashMap::insert` /
SQL upsert semantics: afterwards the key maps to exactly this value). -/
def assocInsert {α : Type} (l : List (SessionKey × α)) (k : SessionKey) (v : α) :
    List (SessionKey × α) :=
  assocErase l k ++ [(k, v)]

/-- In-memory session store contents (`InMemorySessionStore.sessions`). -/
abbrev Store := List (SessionKey × TranscriptionSession)

/-- Model of `InMemorySessionStore::get`. -/
def Store.get (store : Store) (key : SessionKey) : Option TranscriptionSession :=
  assocLookup store key

/-- Model of `InMemorySessionStore::set`. -/
def Store.set (store : Store) (key : SessionKey) (session : TranscriptionSession) : Store :=
  assocInsert store key session

/-- Model of `InMemorySessionStore::delete`. -/
def Store.delete (store : Store) (key : SessionKey) : Store :=
  assocErase store key

/-- Model of `InMemorySessionStore::list_all` (a point-in-time copy). -/
def Store.list_all (store : Store) : List (SessionKey × TranscriptionSession) :=
  store

/-- Well-formedness of a store: at most one entry per key, the invariant the
`HashMap`-backed store maintains. -/
def Store.WF (store : Store) : Prop :=
  (store.map Prod.fst).Nodup

instance : DecidablePred Store.WF := fun store =>
  inferInstanceAs (Decidable ((store.map Prod.fst).Nodup))

/-- Durable storage contents: the `transcription_sessions` table, keyed by the
unique `(user_id, video_id)` pair (`src/db.rs`). -/
structure DB where
  entries : List (SessionKey × Blob)
deriving DecidableEq

/-- Model of `Database::get_session`. -/
def DB.get (db : DB) (key : SessionKey) : Option Blob :=
  assocLookup db.entries key

/-- Model of `Database::upsert_session` (`INSERT ... ON CONFLICT DO UPDATE`). -/
def DB.upsert (db : DB) (key : SessionKey) (blob : Blob) : DB :=
  ⟨assocInsert db.entries key blob⟩

/-- Model of `Database::upsert_sessions_batch` applied successfully: every
entry of the batch is upserted (the whole batch is one transaction; a failed
batch is modelled by not calling this at all). -/
def DB.upsert_batch (db : DB) (entries : List (SessionKey × Blob)) : DB :=
  entries.foldl (fun d e => DB.upsert d e.1 e.2) db

/-- Model of `handle_text_message` (`src/websocket.rs`): dispatch on the parsed
client message, read the record, conditionally apply, write back. -/
def handle_text_message (store : Store) (key : SessionKey) (msg : ClientMessage) :
    Except String Store :=
  match msg with
  | ClientMessage.UpdatePlaybackPosition playback =>
    match Store.get store key with
    | none => Except.error "Session not found"
    | some session =>
      if playback.version ≥ session.version then
        Except.ok (Store.set store key
          { session with
              current_time := playback.current_time
              version := playback.version
              dirty := true })
      else
        Except.ok store
  | ClientMessage.UpdatePlaybackSpeed update =>
    match Store.get store key with
    | none => Except.error "Session not found"
    | some session =>
      if update.version ≥ session.version then
        Except.ok (Store.set store key
          { session with
              playback_speed := update.playback_speed
              version := update.version
              dirty := true })
      else
        Except.ok store
  | ClientMessage.UpdateVolume update =>
    match Store.get store key with
    | none => Except.error "Session not found"
    | some session =>
      if update.version ≥ session.version then
        Except.ok (Store.set store key
          { session with
              volume := update.volume
              version := update.version
              dirty := true })
      else
        Except.ok store
  | ClientMessage.SyncState client_state =>
    match Store.get store key with
    | none => Except.error "Session not found"
    | some session =>
      Except.ok (Store.set store key
        { session with
            current_time := client_state.current_time
            playback_speed := client_state.playback_speed
            volume := client_state.volume
            version := client_state.version
            dirty := true })

/-- Model of `load_or_create_session` (`src/websocket.rs`). `dbReadFails`
models `Database::get_session` returning `Err` (the handler logs and falls
through to creating a fresh session). -/
def load_or_create_session (store : Store) (db : DB) (dbReadFails : Bool)
    (key : SessionKey) : Except String (TranscriptionSession × Store) :=
  match Store.get store key with
  | some session => Except.ok (session, store)
  | none =>
    let created : TranscriptionSession :=
      { user_id := key.1
        video_id := key.2
        current_time := 0
        playback_speed := 1
        volume := 1
        version := 0
        dirty := false }
    let dbRes : Except Unit (Option Blob) :=
      if dbReadFails then Except.error () else Except.ok (DB.get db key)
    match dbRes with
    | Except.ok (some blob) =>
      match deserialize blob with
      | some session =>
        let session := { session with dirty := false }
        Except.ok (session, Store.set store key session)
      | none =>
        Except.ok (created, Store.set store key created)
    | Except.ok none =>
      Except.ok (created, Store.set store key created)
    | Except.error _ =>
      Except.ok (created, Store.set store key created)

/-- Server message built by `send_video_metadata` (`src/websocket.rs`). -/
def send_video_metadata_msg (video : Video) : ServerMessage :=
  ServerMessage.VideoMetadata video.width video.height video.duration_seconds

/-- Server message built by `send_state_sync` (`src/websocket.rs`): the
snapshot excludes the `dirty` bookkeeping flag. -/
def send_state_sync_msg (session : TranscriptionSession) : ServerMessage :=
  ServerMessage.StateSync
    { current_time := session.current_time
      playback_speed := session.playback_speed
      volume := session.volume
      version := session.version }

/-- Model of the cleanup block at the end of `handle_socket`
(`src/websocket.rs`): re-read the record, flush it synchronously when dirty
(`upsertFails` models `Database::upsert_session` returning `Err`, which is
only logged), then delete the record from the store regardless. -/
def detach_cleanup (store : Store) (db : DB) (upsertFails : Bool)
    (key : SessionKey) : Store × DB :=
  let db' :=
    match Store.get store key with
    | some session =>
      if session.dirty then
        if upsertFails then db else DB.upsert db key (serialize session)
      else db
    | none => db
  (Store.delete store key, db')

/-- Model of one iteration of the loop in `spawn_persistence_task`
(`src/lib.rs`): list all sessions, keep the dirty ones together with their
pre-flush copies, skip when the batch is empty, batch-upsert, and on success
write every held copy back with `dirty := false`. `batchFails` models
`upsert_sessions_batch` returning `Err`: the transaction leaves durable
storage unchanged and the loop `continue`s before touching the store. -/
def persistence_tick (store : Store) (db : DB) (batchFails : Bool) : Store × DB :=
  let dirty_sessions := (Store.list_all store).filter (fun p => p.2.dirty)
  if dirty_sessions.isEmpty then
    (store, db)
  else if batchFails then
    (store, db)
  else
    (dirty_sessions.foldl
       (fun st p => Store.set st p.1 { p.2 with dirty := false }) store,
     DB.upsert_batch db (dirty_sessions.map (fun p => (p.1, serialize p.2))))

/-- Model of `handle_socket` (`src/websocket.rs`): attach, look up the video,
send the metadata and snapshot messages, apply the inbound messages in order
(per-message errors are only logged), then run the detach cleanup. Returns the
final store, the final durable contents, and the list of messages actually
sent to the client. `videoRes` models `Database::get_video`; `sendMetaOk` and
`sendSyncOk` model the two socket sends. -/
def handle_socket (store : Store) (db : DB) (key : SessionKey)
    (dbReadFails : Bool) (videoRes : Except Unit (Option Video))
    (sendMetaOk : Bool) (sendSyncOk : Bool) (msgs : List ClientMessage)
    (detachUpsertFails : Bool) : Store × DB × List ServerMessage :=
  match load_or_create_session store db dbReadFails key with
  | Except.error _ => (store, db, [])
  | Except.ok (session, store₁) =>
    match videoRes with
    | Except.error _ => (store₁, db, [])
    | Except.ok none => (store₁, db, [])
    | Except.ok (some video) =>
      if sendMetaOk = false then
        (store₁, db, [])
      else if sendSyncOk = false then
        (store₁, db, [send_video_metadata_msg video])
      else
        let store₂ := msgs.foldl
          (fun st m =>
            match handle_text_message st key m with
            | Except.ok st' => st'
            | Except.error _ => st) store₁
        let cleaned := detach_cleanup store₂ db detachUpsertFails key
        (cleaned.1, cleaned.2,
         [send_video_metadata_msg video, send_state_sync_msg session])

/-! ### Association-list lemmas -/

theorem assocLookup_append {α : Type} (l₁ l₂ : List (SessionKey × α)) (k : SessionKey) :
    assocLookup (l₁ ++ l₂) k = (assocLookup l₁ k).or (assocLookup l₂ k) := by
  induction l₁ with
  | nil => simp [assocLookup]
  | cons p ps ih =>
    by_cases h : p.1 = k <;> simp [assocLookup, h, ih]

theorem assocLookup_erase_self {α : Type} (l : List (SessionKey × α)) (k : SessionKey) :
    assocLookup (assocErase l k) k = none := by
  induction l with
  | nil => rfl
  | cons p ps ih =>
    by_cases h : p.1 = k <;> simp [assocErase, assocLookup, h, ih]

theorem assocLookup_erase_ne {α : Type} (l : List (SessionKey × α)) {k' k : SessionKey}
    (h : k' ≠ k) :
    assocLookup (assocErase l k') k = assocLookup l k := by
  induction l with
  | nil => rfl
  | cons p ps ih =>
    by_cases hp : p.1 = k'
    · have hpk : p.1 ≠ k := by rw [hp]; exact h
      simp [assocErase, assocLookup, hp, hpk, h, ih]
    · simp only [assocErase, if_neg hp, assocLookup]
      by_cases hk : p.1 = k
      · simp [hk]
      · simp [hk, ih]

theorem assocLookup_insert_self {α : Type} (l : List (SessionKey × α)) (k : SessionKey)
    (v : α) :
    assocLookup (assocInsert l k v) k = some v := by
  simp [assocInsert, assocLookup_append, assocLookup_erase_self, assocLookup]

theorem assocLookup_insert_ne {α : Type} (l : List (SessionKey × α)) {k' k : SessionKey}
    (v : α) (h : k' ≠ k) :
    assocLookup (assocInsert l k' v) k = assocLookup l k := by
  simp [assocInsert, assocLookup_append, assocLookup_erase_ne l h, assocLookup, h]

theorem assocLookup_eq_some_of_mem {α : Type} {l : List (SessionKey × α)}
    {k : SessionKey} {v : α} (hnd : (l.map Prod.fst).Nodup) (hm : (k, v) ∈ l) :
    assocLookup l k = some v := by
  induction l with
  | nil => cases hm
  | cons p ps ih =>
    rcases List.mem_cons.mp hm with hme | hme
    · subst hme
      simp [assocLookup]
    · have hk : k ∈ ps.map Prod.fst := List.mem_map.mpr ⟨(k, v), hme, rfl⟩
      have hne : p.1 ≠ k := by
        intro hEq
        exact (List.nodup_cons.mp hnd).1 (hEq ▸ hk)
      simp only [assocLookup, if_neg hne]
      exact ih (List.nodup_cons.mp hnd).2 hme

theorem mem_of_assocLookup_eq_some {α : Type} {l : List (SessionKey × α)}
    {k : SessionKey} {v : α} (h : assocLookup l k = some v) : (k, v) ∈ l := by
  induction l with
  | nil => simp [assocLookup] at h
  | cons p ps ih =>
    obtain ⟨a, b⟩ := p
    by_cases hp : a = k
    · simp [assocLookup, hp] at h
      subst hp
      subst h
      exact List.mem_cons_self _ _
    · simp [assocLookup, hp] at h
      exact List.mem_cons_of_mem _ (ih h)

theorem assocLookup_foldl_insert_of_not_mem {α β : Type} (g : β → α)
    (es : List (SessionKey × β)) (l : List (SessionKey × α)) (k : SessionKey)
    (hk : k ∉ es.map Prod.fst) :
    assocLookup (es.foldl (fun acc p => assocInsert acc p.1 (g p.2)) l) k =
      assocLookup l k := by
  induction es generalizing l with
  | nil => rfl
  | cons e es ih =>
    have hne : e.1 ≠ k := by
      intro hEq
      exact hk (by simp [hEq])
    have htail : k ∉ es.map Prod.fst := by
      intro hmem
      exact hk (by simp [hmem])
    rw [List.foldl_cons, ih (assocInsert l e.1 (g e.2)) htail,
      assocLookup_insert_ne l (g e.2) hne]

theorem assocLookup_foldl_insert_of_mem {α β : Type} (g : β → α)
    (es : List (SessionKey × β)) (l : List (SessionKey × α)) (k : SessionKey)
    (b : β) (hnd : (es.map Prod.fst).Nodup) (hm : (k, b) ∈ es) :
    assocLookup (es.foldl (fun acc p => assocInsert acc p.1 (g p.2)) l) k =
      some (g b) := by
  induction es generalizing l with
  | nil => cases hm
  | cons e es ih =>
    rcases List.mem_cons.mp hm with hme | hme
    · have hk : k ∉ es.map Prod.fst := by
        have hh := (List.nodup_cons.mp hnd).1
        rw [← hme] at hh
        exact hh
      rw [List.foldl_cons,
        assocLookup_foldl_insert_of_not_mem g es _ k hk, ← hme]
      exact assocLookup_insert_self l k (g b)
    · rw [List.foldl_cons]
      exact ih (assocInsert l e.1 (g e.2)) (List.nodup_cons.mp hnd).2 hme

theorem DB.upsert_batch_entries (db : DB) (es : List (SessionKey × Blob)) :
    (DB.upsert_batch db es).entries =
      es.foldl (fun l e => assocInsert l e.1 e.2) db.entries := by
  induction es generalizing db with
  | nil => rfl
  | cons e es ih =>
    rw [DB.upsert_batch, List.foldl_cons, List.foldl_cons]
    exact ih (DB.upsert db e.1 e.2)

/-- Decidable equality for `Except` results, used to evaluate the model on
concrete inputs. -/
instance {e a : Type} [DecidableEq e] [DecidableEq a] : DecidableEq (Except e a) := fun x y =>
  match x, y with
  | Except.error e1, Except.error e2 =>
    if h : e1 = e2 then isTrue (by rw [h])
    else isFalse (fun hc => h (by injection hc))
  | Except.error _, Except.ok _ => isFalse (fun hc => Except.noConfusion hc)
  | Except.ok _, Except.error _ => isFalse (fun hc => Except.noConfusion hc)
  | Except.ok a1, Except.ok a2 =>
    if h : a1 = a2 then isTrue (by rw [h])
    else isFalse (fun hc => h (by injection hc))

/-- C1: for every session record and every inbound field-level update message
(`UpdatePlaybackPosition`, `UpdatePlaybackSpeed`, or `UpdateVolume`), the
handler applies the update iff `message.version >= record.version`; when
applied, exactly the corresponding field and the record's `version` are set to
the message's values and `dirty` is set true; when
`message.version < record.version` the message is silently dropped: the store
is unchanged and the handler still returns `ok` (no error for the client). -/
theorem c1_field_level_update_iff (store : Store) (key : SessionKey)
    (session : TranscriptionSession) (h : Store.get store key = some session) :
    (∀ p : PlaybackUpdate,
      (p.version ≥ session.version →
        handle_text_message store key (ClientMessage.UpdatePlaybackPosition p) =
          Except.ok (Store.set store key
            { session with
                current_time := p.current_time
                version := p.version
                dirty := true })) ∧
      (p.version < session.version →
        handle_text_message store key (ClientMessage.UpdatePlaybackPosition p) =
          Except.ok store)) ∧
    (∀ p : PlaybackSpeedUpdate,
      (p.version ≥ session.version →
        handle_text_message store key (ClientMessage.UpdatePlaybackSpeed p) =
          Except.ok (Store.set store key
            { session with
                playback_speed := p.playback_speed
                version := p.version
                dirty := true })) ∧
      (p.version < session.version →
        handle_text_message store key (ClientMessage.UpdatePlaybackSpeed p) =
          Except.ok store)) ∧
    (∀ p : VolumeUpdate,
      (p.version ≥ session.version →
        handle_text_message store key (ClientMessage.UpdateVolume p) =
          Except.ok (Store.set store key
            { session with
                volume := p.volume
                version := p.version
                dirty := true })) ∧
      (p.version < session.version →
        handle_text_message store key (ClientMessage.UpdateVolume p) =
          Except.ok store)) := by
  refine ⟨fun p => ⟨fun hge => ?_, fun hlt => ?_⟩,
          fun p => ⟨fun hge => ?_, fun hlt => ?_⟩,
          fun p => ⟨fun hge => ?_, fun hlt => ?_⟩⟩ <;>
    simp only [handle_text_message, h] <;>
    first
      | rw [if_pos hge]
      | rw [if_neg (not_le.mpr hlt)]

theorem c1_witness :
    handle_text_message
        [((("u", "v") : SessionKey), TranscriptionSession.mk "u" "v" 0 1 1 5 false)]
        ("u", "v") (ClientMessage.UpdatePlaybackPosition ⟨10, 7⟩) =
      Except.ok (Store.set
        [((("u", "v") : SessionKey), TranscriptionSession.mk "u" "v" 0 1 1 5 false)]
        ("u", "v") (TranscriptionSession.mk "u" "v" 10 1 1 7 true)) ∧
    handle_text_message
        [((("u", "v") : SessionKey), TranscriptionSession.mk "u" "v" 0 1 1 5 false)]
        ("u", "v") (ClientMessage.UpdatePlaybackPosition ⟨10, 3⟩) =
      Except.ok
        [((("u", "v") : SessionKey), TranscriptionSession.mk "u" "v" 0 1 1 5 false)] :=
  ⟨((c1_field_level_update_iff
        [((("u", "v") : SessionKey), TranscriptionSession.mk "u" "v" 0 1 1 5 false)]
        ("u", "v") (TranscriptionSession.mk "u" "v" 0 1 1 5 false)
        (by decide)).1 ⟨10, 7⟩).1 (by decide),
   ((c1_field_level_update_iff
        [((("u", "v") : SessionKey), TranscriptionSession.mk "u" "v" 0 1 1 5 false)]
        ("u", "v") (TranscriptionSession.mk "u" "v" 0 1 1 5 false)
        (by decide)).1 ⟨10, 3⟩).2 (by decide)⟩

/-- C2: a `SyncState` message is applied unconditionally, whatever its version:
afterwards `current_time`, `playback_speed` and `volume` equal the message's
values, `version` equals exactly the message's version, and `dirty` is true. -/
theorem c2_syncstate_unconditional (store : Store) (key : SessionKey)
    (session : TranscriptionSession) (h : Store.get store key = some session)
    (client_state : SessionState) :
    handle_text_message store key (ClientMessage.SyncState client_state) =
      Except.ok (Store.set store key
        { session with
            current_time := client_state.current_time
            playback_speed := client_state.playback_speed
            volume := client_state.volume
            version := client_state.version
            dirty := true }) ∧
    Store.get (Store.set store key
        { session with
            current_time := client_state.current_time
            playback_speed := client_state.playback_speed
            volume := client_state.volume
            version := client_state.version
            dirty := true }) key =
      some { session with
              current_time := client_state.current_time
              playback_speed := client_state.playback_speed
              volume := client_state.volume
              version := client_state.version
              dirty := true } := by
  constructor
  · simp only [handle_text_message, h]
  · exact assocLookup_insert_self store key _

theorem c2_witness :
    handle_text_message
        [((("u", "v") : SessionKey), TranscriptionSession.mk "u" "v" 0 1 1 5 false)]
        ("u", "v") (ClientMessage.SyncState ⟨7, 2, 1, 2⟩) =
      Except.ok (Store.set
        [((("u", "v") : SessionKey), TranscriptionSession.mk "u" "v" 0 1 1 5 false)]
        ("u", "v") (TranscriptionSession.mk "u" "v" 7 2 1 2 true)) :=
  (c2_syncstate_unconditional
      [((("u", "v") : SessionKey), TranscriptionSession.mk "u" "v" 0 1 1 5 false)]
      ("u", "v") (TranscriptionSession.mk "u" "v" 0 1 1 5 false)
      (by decide) ⟨7, 2, 1, 2⟩).1

/-! ### Persistence-tick lemmas -/

theorem persistence_tick_fails (store : Store) (db : DB) :
    persistence_tick store db true = (store, db) := by
  simp only [persistence_tick, Store.list_all]
  split <;> rfl

theorem persistence_tick_skip (store : Store) (db : DB) (b : Bool)
    (hall : ∀ p ∈ store, p.2.dirty = false) :
    persistence_tick store db b = (store, db) := by
  have hnil : store.filter (fun p => p.2.dirty) = [] := by
    rw [List.filter_eq_nil_iff]
    intro p hp
    simp [hall p hp]
  simp [persistence_tick, Store.list_all, hnil]

theorem persistence_tick_of_dirty (store : Store) (db : DB) (key : SessionKey)
    (s : TranscriptionSession) (hwf : Store.WF store)
    (h : Store.get store key = some s) (hd : s.dirty = true) :
    Store.get (persistence_tick store db false).1 key = some { s with dirty := false } ∧
    DB.get (persistence_tick store db false).2 key = some (serialize s) := by
  have hmem : (key, s) ∈ store := mem_of_assocLookup_eq_some h
  have hmemd : (key, s) ∈ store.filter (fun p => p.2.dirty) :=
    List.mem_filter.mpr ⟨hmem, by simp [hd]⟩
  have hsub : List.Sublist ((store.filter (fun p => p.2.dirty)).map Prod.fst)
      (store.map Prod.fst) :=
    List.Sublist.map Prod.fst (List.filter_sublist store)
  have hnd : ((store.filter (fun p => p.2.dirty)).map Prod.fst).Nodup :=
    hwf.sublist hsub
  have hne : ¬((store.filter (fun p => p.2.dirty)).isEmpty = true) := by
    intro hEmpty
    rw [List.isEmpty_iff] at hEmpty
    rw [hEmpty] at hmemd
    cases hmemd
  constructor
  · show Store.get (persistence_tick store db false).1 key = _
    simp only [persistence_tick, Store.list_all]
    rw [if_neg hne]
    simp only [Bool.false_eq_true, if_false]
    exact assocLookup_foldl_insert_of_mem (fun t => { t with dirty := false })
      _ store key s hnd hmemd
  · simp only [persistence_tick, Store.list_all]
    rw [if_neg hne]
    simp only [Bool.false_eq_true, if_false]
    show assocLookup (DB.upsert_batch db _).entries key = _
    rw [DB.upsert_batch_entries]
    have hndb : (((store.filter (fun p => p.2.dirty)).map
        (fun p => (p.1, serialize p.2))).map Prod.fst).Nodup := by
      rw [List.map_map]
      exact hnd
    have hmemb : (key, serialize s) ∈
        (store.filter (fun p => p.2.dirty)).map (fun p => (p.1, serialize p.2)) :=
      List.mem_map.mpr ⟨(key, s), hmemd, rfl⟩
    exact assocLookup_foldl_insert_of_mem (fun b => b) _ db.entries key
      (serialize s) hndb hmemb

theorem persistence_tick_of_clean (store : Store) (db : DB) (key : SessionKey)
    (s : TranscriptionSession) (hwf : Store.WF store)
    (h : Store.get store key = some s) (hd : s.dirty = false) (b : Bool) :
    Store.get (persistence_tick store db b).1 key = some s ∧
    DB.get (persistence_tick store db b).2 key = DB.get db key := by
  have hnotk : key ∉ (store.filter (fun p => p.2.dirty)).map Prod.fst := by
    intro hk
    obtain ⟨p, hpmem, hpfst⟩ := List.mem_map.mp hk
    obtain ⟨pk, pv⟩ := p
    have hpstore : (pk, pv) ∈ store := (List.mem_filter.mp hpmem).1
    have hpdirty : pv.dirty = true := by
      simpa using (List.mem_filter.mp hpmem).2
    have hkey : pk = key := hpfst
    rw [hkey] at hpstore
    have hlook : assocLookup store key = some pv :=
      assocLookup_eq_some_of_mem hwf hpstore
    rw [Store.get] at h
    rw [h] at hlook
    injection hlook with hsv
    rw [← hsv] at hpdirty
    rw [hd] at hpdirty
    cases hpdirty
  by_cases hEmpty : (store.filter (fun p => p.2.dirty)).isEmpty = true
  · refine ⟨?_, ?_⟩ <;>
      simp only [persistence_tick, Store.list_all, if_pos hEmpty]
    exact h
  · cases b
    · refine ⟨?_, ?_⟩ <;>
        simp only [persistence_tick, Store.list_all, if_neg hEmpty,
          Bool.false_eq_true, if_false]
      · exact (assocLookup_foldl_insert_of_not_mem
          (fun t => { t with dirty := false }) _ store key hnotk).trans h
      · show assocLookup (DB.upsert_batch db _).entries key = _
        rw [DB.upsert_batch_entries]
        have hnotkb : key ∉ ((store.filter (fun p => p.2.dirty)).map
            (fun p => (p.1, serialize p.2))).map Prod.fst := by
          rw [List.map_map]
          exact hnotk
        exact assocLookup_foldl_insert_of_not_mem (fun b => b) _ db.entries key hnotkb
    · rw [persistence_tick_fails]
      exact ⟨h, rfl⟩

/-- C3 counterexample: the claim that `version` never decreases under every
client message kind is false: a record at version 5 receiving
`SyncState` with version 2 ends at version 2. The first conjunct shows the
pre-state, the second the handler's actual result, the third that the version
strictly decreased. -/
theorem c3_counterexample :
    Store.get [((("u", "v") : SessionKey), TranscriptionSession.mk "u" "v" 0 1 1 5 false)]
        ("u", "v") = some (TranscriptionSession.mk "u" "v" 0 1 1 5 false) ∧
    handle_text_message
        [((("u", "v") : SessionKey), TranscriptionSession.mk "u" "v" 0 1 1 5 false)]
        ("u", "v") (ClientMessage.SyncState ⟨0, 1, 1, 2⟩) =
      Except.ok [((("u", "v") : SessionKey), TranscriptionSession.mk "u" "v" 0 1 1 2 true)] ∧
    ((2 : Int) < 5) := by
  refine ⟨by decide, by decide, by decide⟩

/-- C3 amended: `version` never decreases under the three field-level updates,
the persistence scheduler's dirty-clearing write-back, and attach of an
already-live record (which changes nothing); detach deletes the record,
ending its lifetime. `SyncState` is the exception: it sets `version` to
exactly the message's version, which may be lower (see the counterexample). -/
theorem c3_version_monotone (store : Store) (key : SessionKey)
    (s : TranscriptionSession) (h : Store.get store key = some s) :
    (∀ p : PlaybackUpdate, ∀ store' s',
        handle_text_message store key (ClientMessage.UpdatePlaybackPosition p) =
          Except.ok store' →
        Store.get store' key = some s' → s.version ≤ s'.version) ∧
    (∀ p : PlaybackSpeedUpdate, ∀ store' s',
        handle_text_message store key (ClientMessage.UpdatePlaybackSpeed p) =
          Except.ok store' →
        Store.get store' key = some s' → s.version ≤ s'.version) ∧
    (∀ p : VolumeUpdate, ∀ store' s',
        handle_text_message store key (ClientMessage.UpdateVolume p) =
          Except.ok store' →
        Store.get store' key = some s' → s.version ≤ s'.version) ∧
    (Store.WF store → ∀ db : DB, ∀ b : Bool, ∀ s',
        Store.get (persistence_tick store db b).1 key = some s' →
        s.version ≤ s'.version) ∧
    (∀ db : DB, ∀ rf : Bool,
        load_or_create_session store db rf key = Except.ok (s, store)) ∧
    (∀ db : DB, ∀ f : Bool,
        Store.get (detach_cleanup store db f key).1 key = none) := by
  refine ⟨?_, ?_, ?_, ?_, ?_, ?_⟩
  · intro p store' s' hrun hget
    simp only [handle_text_message, h] at hrun
    by_cases hv : p.version ≥ s.version
    · rw [if_pos hv] at hrun
      injection hrun with hrun
      rw [← hrun] at hget
      rw [Store.get, Store.set, assocLookup_insert_self] at hget
      injection hget with hget
      rw [← hget]
      exact hv
    · rw [if_neg hv] at hrun
      injection hrun with hrun
      rw [← hrun] at hget
      rw [h] at hget
      injection hget with hget
      rw [← hget]
  · intro p store' s' hrun hget
    simp only [handle_text_message, h] at hrun
    by_cases hv : p.version ≥ s.version
    · rw [if_pos hv] at hrun
      injection hrun with hrun
      rw [← hrun] at hget
      rw [Store.get, Store.set, assocLookup_insert_self] at hget
      injection hget with hget
      rw [← hget]
      exact hv
    · rw [if_neg hv] at hrun
      injection hrun with hrun
      rw [← hrun] at hget
      rw [h] at hget
      injection hget with hget
      rw [← hget]
  · intro p store' s' hrun hget
    simp only [handle_text_message, h] at hrun
    by_cases hv : p.version ≥ s.version
    · rw [if_pos hv] at hrun
      injection hrun with hrun
      rw [← hrun] at hget
      rw [Store.get, Store.set, assocLookup_insert_self] at hget
      injection hget with hget
      rw [← hget]
      exact hv
    · rw [if_neg hv] at hrun
      injection hrun with hrun
      rw [← hrun] at hget
      rw [h] at hget
      injection hget with hget
      rw [← hget]
  · intro hwf db b s' hget
    by_cases hd : s.dirty = true
    · cases b
      · rw [(persistence_tick_of_dirty store db key s hwf h hd).1] at hget
        injection hget with hget
        rw [← hget]
      · rw [persistence_tick_fails] at hget
        rw [h] at hget
        injection hget with hget
        rw [← hget]
    · have hd' : s.dirty = false := by
        cases hds : s.dirty
        · rfl
        · exact absurd hds hd
      rw [(persistence_tick_of_clean store db key s hwf h hd' b).1] at hget
      injection hget with hget
      rw [← hget]
  · intro db rf
    simp only [load_or_create_session, h]
  · intro db f
    show assocLookup (assocErase store key) key = none
    exact assocLookup_erase_self store key

theorem c3_witness :
    (TranscriptionSession.mk "u" "v" 0 1 1 5 false).version ≤
      (TranscriptionSession.mk "u" "v" 10 1 1 7 true).version :=
  (c3_version_monotone
      [((("u", "v") : SessionKey), TranscriptionSession.mk "u" "v" 0 1 1 5 false)]
      ("u", "v") (TranscriptionSession.mk "u" "v" 0 1 1 5 false)
      (by decide)).1 ⟨10, 7⟩
    [((("u", "v") : SessionKey), TranscriptionSession.mk "u" "v" 10 1 1 7 true)]
    (TranscriptionSession.mk "u" "v" 10 1 1 7 true) (by decide) (by decide)

/-- C4 counterexample: the claim's path (b) — "if the Durable Session
Repository has a snapshot, it is deserialized ... and stored" — fails when the
stored snapshot does not deserialize: the repository has a snapshot for the
key, yet the handler resolves the session to the fresh default record
(path (c)), not to any deserialization of the snapshot. -/
theorem c4_counterexample :
    DB.get ⟨[((("u", "v") : SessionKey), Blob.bad "not json")]⟩ ("u", "v") =
      some (Blob.bad "not json") ∧
    deserialize (Blob.bad "not json") = none ∧
    load_or_create_session [] ⟨[((("u", "v") : SessionKey), Blob.bad "not json")]⟩
        false ("u", "v") =
      Except.ok (TranscriptionSession.mk "u" "v" 0 1 1 0 false,
        [((("u", "v") : SessionKey), TranscriptionSession.mk "u" "v" 0 1 1 0 false)]) := by
  refine ⟨by decide, by decide, by decide⟩

/-- C4 amended: attach resolves the record by exactly one of three paths:
(a) a Session Store hit is returned as is; (b) otherwise a durable snapshot
that deserializes successfully is rehydrated with `dirty := false` and stored;
(c) otherwise — repository read error, no snapshot, or a snapshot that fails
to deserialize — a fresh record `(0, 1, 1, 0, dirty := false)` is created and
stored. -/
theorem c4_attach_resolution (store : Store) (db : DB) (rf : Bool) (key : SessionKey) :
    (∀ s, Store.get store key = some s →
        load_or_create_session store db rf key = Except.ok (s, store)) ∧
    (∀ blob s, Store.get store key = none → rf = false →
        DB.get db key = some blob → deserialize blob = some s →
        load_or_create_session store db rf key =
          Except.ok ({ s with dirty := false },
            Store.set store key { s with dirty := false })) ∧
    (Store.get store key = none →
        (rf = true ∨ DB.get db key = none ∨
          (∃ blob, DB.get db key = some blob ∧ deserialize blob = none)) →
        load_or_create_session store db rf key =
          Except.ok (TranscriptionSession.mk key.1 key.2 0 1 1 0 false,
            Store.set store key (TranscriptionSession.mk key.1 key.2 0 1 1 0 false))) := by
  refine ⟨?_, ?_, ?_⟩
  · intro s hs
    simp only [load_or_create_session, hs]
  · intro blob s h0 hrf hdb hdes
    subst hrf
    simp only [load_or_create_session, h0, hdb, hdes, Bool.false_eq_true, if_false]
  · intro h0 hcase
    rcases hcase with hrf | hdb | ⟨blob, hdb, hdes⟩
    · subst hrf
      simp only [load_or_create_session, h0, if_true]
    · cases rf
      · simp only [load_or_create_session, h0, hdb, Bool.false_eq_true, if_false]
      · simp only [load_or_create_session, h0, if_true]
    · cases rf
      · simp only [load_or_create_session, h0, hdb, hdes, Bool.false_eq_true, if_false]
      · simp only [load_or_create_session, h0, if_true]

theorem c4_witness :
    load_or_create_session []
        ⟨[((("u", "v") : SessionKey),
           Blob.good (TranscriptionSession.mk "u" "v" 3 1 1 4 true))]⟩
        false ("u", "v") =
      Except.ok (TranscriptionSession.mk "u" "v" 3 1 1 4 false,
        [((("u", "v") : SessionKey), TranscriptionSession.mk "u" "v" 3 1 1 4 false)]) :=
  (c4_attach_resolution []
      ⟨[((("u", "v") : SessionKey),
         Blob.good (TranscriptionSession.mk "u" "v" 3 1 1 4 true))]⟩
      false ("u", "v")).2.1
    (Blob.good (TranscriptionSession.mk "u" "v" 3 1 1 4 true))
    (TranscriptionSession.mk "u" "v" 3 1 1 4 false)
    (by decide) rfl (by decide) (by decide)

/-- C9: when the Session Store misses and the durable snapshot exists but
fails to deserialize, attach does not fail: it returns `ok` with the fresh
default record `(0, 1, 1, 0, dirty := false)` and stores it, ignoring the
corrupt snapshot. -/
theorem c9_corrupt_snapshot_fresh (store : Store) (db : DB) (key : SessionKey)
    (raw : String) (h : Store.get store key = none)
    (hdb : DB.get db key = some (Blob.bad raw)) :
    load_or_create_session store db false key =
      Except.ok (TranscriptionSession.mk key.1 key.2 0 1 1 0 false,
        Store.set store key (TranscriptionSession.mk key.1 key.2 0 1 1 0 false)) := by
  simp only [load_or_create_session, h, hdb, deserialize, Bool.false_eq_true, if_false]

theorem c9_witness :
    load_or_create_session []
        ⟨[((("u", "v") : SessionKey), Blob.bad "garbage")]⟩ false ("u", "v") =
      Except.ok (TranscriptionSession.mk "u" "v" 0 1 1 0 false,
        [((("u", "v") : SessionKey), TranscriptionSession.mk "u" "v" 0 1 1 0 false)]) :=
  c9_corrupt_snapshot_fresh [] ⟨[((("u", "v") : SessionKey), Blob.bad "garbage")]⟩
    ("u", "v") "garbage" (by decide) (by decide)

/-- C5: round-trip. A session created fresh, mutated to
`current_time = 42.5 (= 85/2)`, `playback_speed = 1.5 (= 3/2)`,
`volume = 0.8 (= 4/5)`, `version = 3`, flushed by disconnect and rehydrated on
reconnect: the reconnecting client's snapshot message carries exactly those
four values (the first `StateSync` sent, after the one-time metadata
message). -/
theorem c5_round_trip :
    (mkRat 85 2 : ℚ) = 42.5 ∧ (mkRat 3 2 : ℚ) = 1.5 ∧ (mkRat 4 5 : ℚ) = 0.8 ∧
    (let key : SessionKey := ("u", "v")
     let video : Video := ⟨some 640, some 480, some 100⟩
     let r1 := handle_socket [] ⟨[]⟩ key false (Except.ok (some video)) true true
        [ClientMessage.UpdatePlaybackPosition ⟨mkRat 85 2, 1⟩,
         ClientMessage.UpdatePlaybackSpeed ⟨mkRat 3 2, 2⟩,
         ClientMessage.UpdateVolume ⟨mkRat 4 5, 3⟩] false
     let r2 := handle_socket r1.1 r1.2.1 key false (Except.ok (some video)) true true [] false
     r2.2.2) =
      [ServerMessage.VideoMetadata (some 640) (some 480) (some 100),
       ServerMessage.StateSync ⟨mkRat 85 2, mkRat 3 2, mkRat 4 5, 3⟩] :=
  ⟨by norm_num [mkRat, Rat.normalize], by norm_num [mkRat, Rat.normalize],
   by norm_num [mkRat, Rat.normalize], by decide⟩

/-- C6: a record that is clean (`dirty = false`) is never written to durable
storage: a scheduler tick leaves its durable entry untouched (whether the
batch succeeds or fails), a tick over an all-clean store is a no-op (the empty
batch skips the upsert entirely), and the detach path does not flush it. -/
theorem c6_clean_never_flushed (store : Store) (db : DB) (key : SessionKey)
    (s : TranscriptionSession) (hwf : Store.WF store)
    (h : Store.get store key = some s) (hclean : s.dirty = false) :
    (∀ b, DB.get (persistence_tick store db b).2 key = DB.get db key) ∧
    ((∀ p ∈ store, p.2.dirty = false) → ∀ b, persistence_tick store db b = (store, db)) ∧
    (∀ f, (detach_cleanup store db f key).2 = db) := by
  refine ⟨?_, ?_, ?_⟩
  · intro b
    exact (persistence_tick_of_clean store db key s hwf h hclean b).2
  · intro hall b
    exact persistence_tick_skip store db b hall
  · intro f
    simp [detach_cleanup, h, hclean]

theorem c6_witness :
    DB.get (persistence_tick
        [((("u", "v") : SessionKey), TranscriptionSession.mk "u" "v" 9 1 1 5 false)]
        ⟨[]⟩ false).2 ("u", "v") =
      DB.get ⟨[]⟩ ("u", "v") :=
  (c6_clean_never_flushed
      [((("u", "v") : SessionKey), TranscriptionSession.mk "u" "v" 9 1 1 5 false)]
      ⟨[]⟩ ("u", "v") (TranscriptionSession.mk "u" "v" 9 1 1 5 false)
      (by decide) (by decide) rfl).1 false

/-- C7: the batched durable write is all-or-nothing. On batch failure the
scheduler changes neither the Session Store nor durable storage (every
affected record stays dirty for the next tick); on success every dirty record
is durably upserted and written back clean via a `set` of the held pre-flush
copy. -/
theorem c7_batch_failure_atomic (store : Store) (db : DB) (hwf : Store.WF store) :
    persistence_tick store db true = (store, db) ∧
    (∀ key s, Store.get store key = some s → s.dirty = true →
        Store.get (persistence_tick store db false).1 key =
          some { s with dirty := false } ∧
        DB.get (persistence_tick store db false).2 key = some (serialize s)) :=
  ⟨persistence_tick_fails store db,
   fun key s h hd => persistence_tick_of_dirty store db key s hwf h hd⟩

theorem c7_witness :
    Store.get (persistence_tick
        [((("u", "v") : SessionKey), TranscriptionSession.mk "u" "v" 9 1 1 5 true)]
        ⟨[]⟩ false).1 ("u", "v") =
      some (TranscriptionSession.mk "u" "v" 9 1 1 5 false) ∧
    DB.get (persistence_tick
        [((("u", "v") : SessionKey), TranscriptionSession.mk "u" "v" 9 1 1 5 true)]
        ⟨[]⟩ false).2 ("u", "v") =
      some (serialize (TranscriptionSession.mk "u" "v" 9 1 1 5 true)) :=
  (c7_batch_failure_atomic
      [((("u", "v") : SessionKey), TranscriptionSession.mk "u" "v" 9 1 1 5 true)]
      ⟨[]⟩ (by decide)).2 ("u", "v") (TranscriptionSession.mk "u" "v" 9 1 1 5 true)
    (by decide) rfl

/-- C8: on detach the handler re-reads the record; if dirty it is serialized
and synchronously upserted (unless the upsert fails, which only logs); and in
every case — flush succeeded, flush failed, or record clean or absent — the
record is deleted from the Session Store. -/
theorem c8_detach_flush_and_evict (store : Store) (db : DB) (f : Bool)
    (key : SessionKey) :
    (detach_cleanup store db f key).1 = Store.delete store key ∧
    (∀ s, Store.get store key = some s → s.dirty = true → f = false →
        (detach_cleanup store db f key).2 = DB.upsert db key (serialize s)) ∧
    (∀ s, Store.get store key = some s → s.dirty = true → f = true →
        (detach_cleanup store db f key).2 = db) ∧
    (∀ s, Store.get store key = some s → s.dirty = false →
        (detach_cleanup store db f key).2 = db) ∧
    (Store.get store key = none → (detach_cleanup store db f key).2 = db) := by
  refine ⟨rfl, ?_, ?_, ?_, ?_⟩
  · intro s h hd hf
    subst hf
    simp [detach_cleanup, h, hd]
  · intro s h hd hf
    subst hf
    simp [detach_cleanup, h, hd]
  · intro s h hd
    simp [detach_cleanup, h, hd]
  · intro h
    simp [detach_cleanup, h]

theorem c8_witness :
    (detach_cleanup
        [((("u", "v") : SessionKey), TranscriptionSession.mk "u" "v" 9 1 1 5 true)]
        ⟨[]⟩ false ("u", "v")).2 =
      DB.upsert ⟨[]⟩ ("u", "v")
        (serialize (TranscriptionSession.mk "u" "v" 9 1 1 5 true)) :=
  (c8_detach_flush_and_evict
      [((("u", "v") : SessionKey), TranscriptionSession.mk "u" "v" 9 1 1 5 true)]
      ⟨[]⟩ false ("u", "v")).2.1 (TranscriptionSession.mk "u" "v" 9 1 1 5 true)
    (by decide) rfl rfl

/-- After a successful attach, the resolved session is present in the
resulting store under the key. -/
theorem load_or_create_session_get {store : Store} {db : DB} {rf : Bool}
    {key : SessionKey} {s : TranscriptionSession} {store₁ : Store}
    (hload : load_or_create_session store db rf key = Except.ok (s, store₁)) :
    Store.get store₁ key = some s := by
  rcases hst : Store.get store key with _ | s0
  · simp only [load_or_create_session, hst] at hload
    cases rf
    · simp only [Bool.false_eq_true, if_false] at hload
      rcases hdb : DB.get db key with _ | blob
      · simp only [hdb] at hload
        injection hload with hp
        injection hp with h1 h2
        subst h1
        subst h2
        exact assocLookup_insert_self store key _
      · simp only [hdb] at hload
        rcases hdes : deserialize blob with _ | s1
        · simp only [hdes] at hload
          injection hload with hp
          injection hp with h1 h2
          subst h1
          subst h2
          exact assocLookup_insert_self store key _
        · simp only [hdes] at hload
          injection hload with hp
          injection hp with h1 h2
          subst h1
          subst h2
          exact assocLookup_insert_self store key _
    · simp only [if_true] at hload
      injection hload with hp
      injection hp with h1 h2
      subst h1
      subst h2
      exact assocLookup_insert_self store key _
  · simp only [load_or_create_session, hst] at hload
    injection hload with hp
    injection hp with h1 h2
    subst h1
    subst h2
    exact hst

/-- C10: if the video lookup fails or finds nothing, or one of the two initial
sends fails, the handler returns early: the store stays exactly as the attach
left it (the resolved record still present under the key) and durable storage
is untouched — the flush-and-evict cleanup does not run on these paths. -/
theorem c10_early_exit_preserves_store (store : Store) (db : DB)
    (key : SessionKey) (rf : Bool) (v : Except Unit (Option Video))
    (mOk sOk : Bool) (msgs : List ClientMessage) (dF : Bool)
    (session : TranscriptionSession) (store₁ : Store)
    (hload : load_or_create_session store db rf key = Except.ok (session, store₁))
    (hEarly : v = Except.error () ∨ v = Except.ok none ∨ mOk = false ∨ sOk = false) :
    (handle_socket store db key rf v mOk sOk msgs dF).1 = store₁ ∧
    (handle_socket store db key rf v mOk sOk msgs dF).2.1 = db ∧
    Store.get store₁ key = some session := by
  refine ⟨?_, ?_, load_or_create_session_get hload⟩ <;>
  · simp only [handle_socket, hload]
    rcases hEarly with hv | hv | hm | hs
    · subst hv
      rfl
    · subst hv
      rfl
    · subst hm
      rcases v with he | ov
      · rfl
      · rcases ov with _ | video
        · rfl
        · rfl
    · subst hs
      rcases v with he | ov
      · rfl
      · rcases ov with _ | video
        · rfl
        · by_cases hm2 : mOk = false
          · subst hm2
            rfl
          · have hmt : mOk = true := by
              cases mOk
              · exact absurd rfl hm2
              · rfl
            subst hmt
            rfl

theorem c10_witness :
    (handle_socket [] ⟨[]⟩ ("u", "v") false (Except.ok none) true true [] false).1 =
      [((("u", "v") : SessionKey), TranscriptionSession.mk "u" "v" 0 1 1 0 false)] ∧
    (handle_socket [] ⟨[]⟩ ("u", "v") false (Except.ok none) true true [] false).2.1 =
      (⟨[]⟩ : DB) ∧
    Store.get [((("u", "v") : SessionKey), TranscriptionSession.mk "u" "v" 0 1 1 0 false)]
        ("u", "v") = some (TranscriptionSession.mk "u" "v" 0 1 1 0 false) :=
  c10_early_exit_preserves_store [] ⟨[]⟩ ("u", "v") false (Except.ok none) true true
    [] false (TranscriptionSession.mk "u" "v" 0 1 1 0 false)
    [((("u", "v") : SessionKey), TranscriptionSession.mk "u" "v" 0 1 1 0 false)]
    (by decide) (Or.inr (Or.inl rfl))
